import Mathlib

/-!
Shallow embedding of `pymel/util/utilitytypes.py` and proofs about it.

The module defines metaclass-based utilities: `Singleton`, `metaStatic`,
`metaReadOnlyAttr`, `proxyClass`, `defaultdict`, `defaultlist`,
`ModuleInterceptor`, `lazyLoadModule`, `LazyDocString`.  Each piece of
runtime behaviour the claims talk about is embedded as an explicit
state-passing Lean function; Python exceptions become an error type,
Python dicts become association lists, and object identity becomes
numeric instance ids handed out by an explicit allocator.
-/

set_option autoImplicit false

namespace UtilityTypes

/-- Python exceptions raised by the embedded code. -/
inductive PyErr where
  | typeError (msg : String)
  | attributeError (msg : String)
  | keyError (key : String)
  | indexError
  | assertionError
  | lazyDocStringError (msg : String)
  deriving DecidableEq, Repr

/-- Association-list lookup, the embedding of Python `dict` access
(first binding for a key wins; keys are kept unique by `setA`). -/
def lookupA {α : Type} : List (String × α) → String → Option α
  | [], _ => none
  | (k, v) :: rest, key => if k = key then some v else lookupA rest key

/-- Association-list update, the embedding of Python `dict` assignment:
replace the binding if the key is present, append it otherwise. -/
def setA {α : Type} : List (String × α) → String → α → List (String × α)
  | [], key, v => [(key, v)]
  | kv :: rest, key, v => if kv.1 = key then (key, v) :: rest else kv :: setA rest key v

theorem lookupA_setA_self {α : Type} (l : List (String × α)) (key : String) (v : α) :
    lookupA (setA l key v) key = some v := by
  induction l with
  | nil => simp [setA, lookupA]
  | cons kv rest ih =>
    by_cases hk : kv.1 = key
    · simp [setA, hk, lookupA]
    · simp [setA, hk, lookupA, ih]

theorem lookupA_setA_other {α : Type} (l : List (String × α)) (key key' : String) (v : α)
    (hne : key' ≠ key) : lookupA (setA l key v) key' = lookupA l key' := by
  induction l with
  | nil =>
    simp only [setA, lookupA]
    rw [if_neg (fun h => hne h.symm)]
  | cons kv rest ih =>
    by_cases hk : kv.1 = key
    · simp only [setA, if_pos hk, lookupA]
      rw [if_neg (fun h => hne h.symm), if_neg (fun h => hne (hk.symm.trans h).symm)]
    · simp only [setA, if_neg hk, lookupA]
      by_cases hk' : kv.1 = key'
      · rw [if_pos hk', if_pos hk']
      · rw [if_neg hk', if_neg hk']
        exact ih

/-! ## `Singleton` (utilitytypes.py lines 55-85)

`Singleton.__new__` installs, on every class it creates, a generated

    def __new__(cls, *p, **k):
        if '_the_instance' not in cls.__dict__:
            cls._the_instance = super(newcls, cls).__new__(cls, *p, **k)
        return cls._the_instance

and, when the class body defines no `__init__`, a generated

    def __init__(self, *p, **k):
        if p:
            if hasattr(self, 'clear'): self.clear()
            else: super(newcls, self).__init__()
            super(newcls, self).__init__(*p, **k)

Embedding: a class of metaclass `Singleton` is a state holding the
`_the_instance` entry of the class `__dict__` (absent or an instance id),
a fresh-id allocator standing for `super().__new__`, and the contents of
the one instance (a dict, matching the `DictSingleton` doctest).  Calling
the class runs the generated `__new__` then the generated `__init__`. -/

/-- State of a class created with metaclass `Singleton`:
`the_instance` is the `_the_instance` entry of the class dict (`none`
when the key is absent), `nextId` the allocator for fresh instance ids,
`contents` the dict contents of the (unique) instance. -/
structure SingletonClass where
  the_instance : Option Nat
  nextId : Nat
  contents : List (String × Nat)
  deriving DecidableEq, Repr

/-- A freshly created `Singleton` class: `_the_instance` not in
`cls.__dict__`, no instance allocated yet. -/
def initSingletonClass : SingletonClass :=
  { the_instance := none, nextId := 0, contents := [] }

/-- The generated `__new__`: allocate and store `_the_instance` on first
call, return the stored instance ever after. -/
def Singleton_new (s : SingletonClass) : SingletonClass × Nat :=
  match s.the_instance with
  | none => ({ s with the_instance := some s.nextId, nextId := s.nextId + 1 }, s.nextId)
  | some i => (s, i)

/-- The generated `__init__`: with positional arguments it clears and
re-initializes the instance contents, without arguments it does nothing. -/
def Singleton_init (s : SingletonClass) (p : List (String × Nat)) : SingletonClass :=
  if p.isEmpty then s else { s with contents := p }

/-- Calling a `Singleton` class with positional arguments `p`:
`__new__` then `__init__`, returning the new state and the instance id
the call evaluates to. -/
def singletonCall (s : SingletonClass) (p : List (String × Nat)) : SingletonClass × Nat :=
  let (s1, inst) := Singleton_new s
  (Singleton_init s1 p, inst)

/-- The instance ids returned by a sequence of calls to the class, one
call per element of `argss`. -/
def singletonResults (s : SingletonClass) : List (List (String × Nat)) → List Nat
  | [] => []
  | p :: rest =>
    let (s', i) := singletonCall s p
    i :: singletonResults s' rest

theorem Singleton_init_the_instance (s : SingletonClass) (p : List (String × Nat)) :
    (Singleton_init s p).the_instance = s.the_instance := by
  unfold Singleton_init
  split <;> rfl

theorem singletonCall_stores (s : SingletonClass) (p : List (String × Nat)) :
    ((singletonCall s p).1).the_instance = some (singletonCall s p).2 := by
  cases h : s.the_instance with
  | none =>
    simp only [singletonCall, Singleton_new, h, Singleton_init_the_instance]
  | some i =>
    simp only [singletonCall, Singleton_new, h, Singleton_init_the_instance]

theorem singletonCall_of_stored (s : SingletonClass) (p : List (String × Nat)) (i : Nat)
    (h : s.the_instance = some i) :
    (singletonCall s p).2 = i ∧ ((singletonCall s p).1).the_instance = some i := by
  constructor
  · simp [singletonCall, Singleton_new, h]
  · simp [singletonCall, Singleton_new, h, Singleton_init_the_instance]

theorem singletonResults_of_stored (s : SingletonClass) (i : Nat)
    (h : s.the_instance = some i) (argss : List (List (String × Nat))) :
    ∀ x ∈ singletonResults s argss, x = i := by
  induction argss generalizing s with
  | nil => intro x hx; simp [singletonResults] at hx
  | cons p rest ih =>
    intro x hx
    simp only [singletonResults, List.mem_cons] at hx
    rcases singletonCall_of_stored s p i h with ⟨hcall, hstate⟩
    rcases hx with hx | hx
    · rw [hx, hcall]
    · exact ih _ hstate x hx

theorem singletonResults_all_eq_head (s : SingletonClass)
    (p : List (String × Nat)) (rest : List (List (String × Nat))) :
    ∀ x ∈ singletonResults s (p :: rest), x = (singletonCall s p).2 := by
  intro x hx
  simp only [singletonResults, List.mem_cons] at hx
  rcases hx with hx | hx
  · exact hx
  · exact singletonResults_of_stored (singletonCall s p).1 (singletonCall s p).2
      (singletonCall_stores s p) rest x hx

/-- C1: for every class created with metaclass `Singleton`, construction is
single-instance: the first call creates an instance and stores it in the
class dict (`_the_instance`), and any two values obtained by calling the
class (with or without arguments) are the same object. -/
theorem C1_singleton_single_instance :
    (∀ (s : SingletonClass) (p : List (String × Nat)),
       ((singletonCall s p).1).the_instance = some (singletonCall s p).2) ∧
    (∀ (argss : List (List (String × Nat))) (x y : Nat),
       x ∈ singletonResults initSingletonClass argss →
       y ∈ singletonResults initSingletonClass argss → x = y) := by
  refine ⟨singletonCall_stores, ?_⟩
  intro argss x y hx hy
  cases argss with
  | nil => simp [singletonResults] at hx
  | cons p rest =>
    rw [singletonResults_all_eq_head initSingletonClass p rest x hx,
        singletonResults_all_eq_head initSingletonClass p rest y hy]

/-- Witness for C1 at a concrete call sequence: one call without and one
call with arguments return the same instance. -/
theorem C1_singleton_single_instance_witness :
    ((singletonCall initSingletonClass []).1).the_instance
      = some (singletonCall initSingletonClass []).2 ∧ (0 : Nat) = 0 :=
  ⟨C1_singleton_single_instance.1 initSingletonClass [],
   C1_singleton_single_instance.2 [[], [("A", 1)]] 0 0 (by decide) (by decide)⟩

/-- C5 counterexample: instantiating a `Singleton` class is an operation
performed after the class object is created, yet it changes the
`_the_instance` entry of the class dictionary (absent before the first
call, present after), so class dictionaries are not mutated exactly once
at class-definition time. -/
theorem C5_class_dict_mutated_after_creation :
    ((singletonCall initSingletonClass []).1).the_instance
      ≠ initSingletonClass.the_instance := by
  decide

/-- C5 (amended): instantiation mutates the class dictionary of a
`Singleton`-metaclass class exactly once: the first call adds the
`_the_instance` entry, and once that entry is present every later call
leaves it (the only class-dict entry written at run time) unchanged. -/
theorem C5_amended_class_dict_written_once (s : SingletonClass)
    (p : List (String × Nat)) :
    (s.the_instance = none →
       ((singletonCall s p).1).the_instance = some (singletonCall s p).2) ∧
    (∀ i, s.the_instance = some i →
       ((singletonCall s p).1).the_instance = s.the_instance) := by
  constructor
  · intro _
    exact singletonCall_stores s p
  · intro i h
    rw [(singletonCall_of_stored s p i h).2, h]

/-- Witness for the amended C5 at a concrete state: the first call stores
the instance, and a call on a state that already holds instance `5`
leaves the class dict unchanged. -/
theorem C5_amended_class_dict_written_once_witness :
    ((singletonCall initSingletonClass []).1).the_instance
      = some (singletonCall initSingletonClass []).2 ∧
    ((singletonCall { the_instance := some 5, nextId := 6, contents := [] } []).1).the_instance
      = ({ the_instance := some 5, nextId := 6, contents := [] }
          : SingletonClass).the_instance :=
  ⟨(C5_amended_class_dict_written_once initSingletonClass []).1 rfl,
   (C5_amended_class_dict_written_once
      { the_instance := some 5, nextId := 6, contents := [] } []).2 5 rfl⟩

/-! ## `metaStatic` (utilitytypes.py lines 152-192)

`metaStatic.__new__` installs on every class it creates:

    def __getattribute__(self, name):
        if name in newcls._hide:
            raise AttributeError, "'"+classname+"' object has no attribute '"+name+"'"
        else:
            return super(newcls, self).__getattribute__(name)
    _hide = ('clear', 'update', 'pop', 'popitem', '__setitem__',
             '__delitem__', 'append', 'extend')
    def __setitem__(self, key, value):
        raise TypeError, "'%s' object does not support item assignation" % (self.__class__)
    def __delitem__(self, key):
        raise TypeError, "'%s' object does not support item deletion" % (self.__class__)

Embedding: an instance is its dict contents; each method returns the
exception it raises (if any) together with the resulting instance state,
and `super().__getattribute__` is an abstract parameter. -/

/-- An instance of a class created with metaclass `metaStatic` (the
doctests use a `dict` subclass, so contents are a dict). -/
structure StaticInstance where
  contents : List (String × Nat)
  deriving DecidableEq, Repr

/-- The `_hide` tuple stored on every `metaStatic`-generated class. -/
def metaStatic_hide : List String :=
  ["clear", "update", "pop", "popitem", "__setitem__", "__delitem__",
   "append", "extend"]

/-- The generated `__setitem__`: unconditionally raises `TypeError`,
touching nothing. -/
def metaStatic_setitem (classname : String) (self : StaticInstance)
    (_key : String) (_value : Nat) : Option PyErr × StaticInstance :=
  (some (.typeError ("'" ++ classname ++ "' object does not support item assignation")),
   self)

/-- The generated `__delitem__`: unconditionally raises `TypeError`,
touching nothing. -/
def metaStatic_delitem (classname : String) (self : StaticInstance)
    (_key : String) : Option PyErr × StaticInstance :=
  (some (.typeError ("'" ++ classname ++ "' object does not support item deletion")),
   self)

/-- The generated `__getattribute__`: raises `AttributeError` for names in
the `_hide` tuple, otherwise defers to `super().__getattribute__`
(abstracted as `superGet`). -/
def metaStatic_getattribute {α : Type} (classname : String)
    (superGet : StaticInstance → String → α) (self : StaticInstance)
    (name : String) : Except PyErr α :=
  if name ∈ metaStatic_hide then
    .error (.attributeError ("'" ++ classname ++ "' object has no attribute '" ++ name ++ "'"))
  else
    .ok (superGet self name)

/-- C2: on any `metaStatic` instance, item assignment and item deletion
raise `TypeError`, attribute access for any name in the hidden-method
tuple raises `AttributeError`, and the instance contents are unchanged by
each of these failed operations. -/
theorem C2_metaStatic_immutable {α : Type} (classname : String)
    (superGet : StaticInstance → String → α) (self : StaticInstance)
    (key : String) (value : Nat) (name : String)
    (hname : name ∈ metaStatic_hide) :
    (metaStatic_setitem classname self key value).1
      = some (.typeError ("'" ++ classname ++ "' object does not support item assignation")) ∧
    (metaStatic_setitem classname self key value).2 = self ∧
    (metaStatic_delitem classname self key).1
      = some (.typeError ("'" ++ classname ++ "' object does not support item deletion")) ∧
    (metaStatic_delitem classname self key).2 = self ∧
    metaStatic_getattribute classname superGet self name
      = .error (.attributeError ("'" ++ classname ++ "' object has no attribute '" ++ name ++ "'")) := by
  refine ⟨rfl, rfl, rfl, rfl, ?_⟩
  unfold metaStatic_getattribute
  rw [if_pos hname]

/-- Witness for C2 at a concrete instance and the hidden name `clear`. -/
theorem C2_metaStatic_immutable_witness :
    (metaStatic_setitem "FrozenDictSingleton" ⟨[("A", 1)]⟩ "A" 2).1
      = some (.typeError "'FrozenDictSingleton' object does not support item assignation") ∧
    (metaStatic_setitem "FrozenDictSingleton" ⟨[("A", 1)]⟩ "A" 2).2 = ⟨[("A", 1)]⟩ ∧
    (metaStatic_delitem "FrozenDictSingleton" ⟨[("A", 1)]⟩ "A").1
      = some (.typeError "'FrozenDictSingleton' object does not support item deletion") ∧
    (metaStatic_delitem "FrozenDictSingleton" ⟨[("A", 1)]⟩ "A").2 = ⟨[("A", 1)]⟩ ∧
    metaStatic_getattribute "FrozenDictSingleton"
        (fun _ _ => (0 : Nat)) ⟨[("A", 1)]⟩ "clear"
      = .error (.attributeError "'FrozenDictSingleton' object has no attribute 'clear'") :=
  C2_metaStatic_immutable "FrozenDictSingleton" (fun _ _ => (0 : Nat))
    ⟨[("A", 1)]⟩ "A" 2 "clear" (by decide)

/-! ## `metaReadOnlyAttr` (utilitytypes.py lines 292-354)

`metaReadOnlyAttr.__setattr__` collects, over `inspect.getmro(cls)`, the
keys of every `__readonly__` dict it finds, raises `AttributeError` when
the assigned name is among them, and otherwise defers to
`type.__setattr__`.  `metaReadOnlyAttr.__new__` builds the new class's
`__readonly__` dict from the `__readonly__` tuple of the class body plus
every member carrying a `__readonly__` marker (the `@readonly`
decorator), plus the key `'__readonly__'` itself.

Embedding: a class in the MRO is its optional `__readonly__` key set; a
class of metaclass `metaReadOnlyAttr` carries its MRO and its writable
class-dict entries; the class body is the optional `__readonly__` tuple
plus the member names with their marker flag. -/

/-- A class as seen by `inspect.getmro`: `readonlyDict` is the key set of
its `__readonly__` dict, `none` when it has no `__readonly__` attribute. -/
structure PyClassInfo where
  readonlyDict : Option (List String)
  deriving DecidableEq, Repr

/-- A class created with metaclass `metaReadOnlyAttr`: its name, its MRO
(the class itself first, then its bases), and its writable class-dict
entries. -/
structure ROClass where
  name : String
  mro : List PyClassInfo
  attrs : List (String × Nat)
  deriving DecidableEq, Repr

/-- The read-only name collection of `metaReadOnlyAttr.__setattr__`:
the union (here: concatenation, compared by membership) of the
`__readonly__` key sets found along the MRO. -/
def collectReadonly (mro : List PyClassInfo) : List String :=
  (mro.filterMap PyClassInfo.readonlyDict).flatten

/-- `metaReadOnlyAttr.__setattr__`: refuse assignment to a collected
read-only name with `AttributeError`, otherwise assign through
`type.__setattr__`. -/
def metaReadOnlyAttr_setattr (cls : ROClass) (name : String) (value : Nat) :
    Option PyErr × ROClass :=
  if name ∈ collectReadonly cls.mro then
    (some (.attributeError ("attribute " ++ name ++
       " is a read only class attribute and cannot be modified on class " ++ cls.name)),
     cls)
  else
    (none, { cls with attrs := setA cls.attrs name value })

/-- A class body handed to `metaReadOnlyAttr.__new__`: the optional
`__readonly__` tuple and the member names, each with the flag saying
whether it carries the `@readonly` marker (`hasattr(member, '__readonly__')`). -/
structure ROClassDict where
  readonlyDecl : Option (List String)
  members : List (String × Bool)
  deriving DecidableEq, Repr

/-- `metaReadOnlyAttr.__new__`: the key set of the `__readonly__` dict it
stores on the new class — the declared tuple, the marked members, and
`'__readonly__'` itself. -/
def metaReadOnlyAttr_new (cd : ROClassDict) : List String :=
  (match cd.readonlyDecl with
   | some t => t
   | none => []) ++ (cd.members.filter (fun m => m.2)).map Prod.fst ++ ["__readonly__"]

/-- C3: assigning a read-only class attribute (any name in a
`__readonly__` dict along the MRO) raises `AttributeError` and changes
nothing; assigning any other class attribute succeeds; and class creation
collects both the declared `__readonly__` tuple and the `@readonly`-marked
members into the new class's `__readonly__` dict. -/
theorem C3_metaReadOnlyAttr_protects (cls : ROClass) (name : String) (value : Nat)
    (cd : ROClassDict) :
    (name ∈ collectReadonly cls.mro →
       (metaReadOnlyAttr_setattr cls name value).1
         = some (.attributeError ("attribute " ++ name ++
             " is a read only class attribute and cannot be modified on class " ++ cls.name)) ∧
       (metaReadOnlyAttr_setattr cls name value).2 = cls) ∧
    (name ∉ collectReadonly cls.mro →
       (metaReadOnlyAttr_setattr cls name value).1 = none ∧
       lookupA ((metaReadOnlyAttr_setattr cls name value).2).attrs name = some value) ∧
    (∀ t, cd.readonlyDecl = some t → ∀ a ∈ t, a ∈ metaReadOnlyAttr_new cd) ∧
    (∀ a, (a, true) ∈ cd.members → a ∈ metaReadOnlyAttr_new cd) := by
  refine ⟨?_, ?_, ?_, ?_⟩
  · intro h
    unfold metaReadOnlyAttr_setattr
    rw [if_pos h]
    exact ⟨rfl, rfl⟩
  · intro h
    unfold metaReadOnlyAttr_setattr
    rw [if_neg h]
    exact ⟨rfl, lookupA_setA_self _ _ _⟩
  · intro t ht a ha
    simp only [metaReadOnlyAttr_new, ht, List.append_assoc, List.mem_append]
    exact Or.inl ha
  · intro a ha
    simp only [metaReadOnlyAttr_new, List.append_assoc, List.mem_append]
    refine Or.inr (Or.inl ?_)
    simp only [List.mem_map]
    exact ⟨(a, true), List.mem_filter.2 ⟨ha, rfl⟩, rfl⟩

/-- Witness for C3 at a concrete class: `apiType` is read-only on the MRO
and cannot be assigned, `other` can, and class creation collects both the
declared tuple entry `apiType` and the marked member `fn`. -/
theorem C3_metaReadOnlyAttr_protects_witness :
    (metaReadOnlyAttr_setattr ⟨"MetaMayaTypeWrapper", [⟨some ["apiType", "__readonly__"]⟩], []⟩
        "apiType" 3).1
      = some (.attributeError ("attribute apiType is a read only class attribute" ++
          " and cannot be modified on class MetaMayaTypeWrapper")) ∧
    (metaReadOnlyAttr_setattr ⟨"MetaMayaTypeWrapper", [⟨some ["apiType", "__readonly__"]⟩], []⟩
        "apiType" 3).2
      = ⟨"MetaMayaTypeWrapper", [⟨some ["apiType", "__readonly__"]⟩], []⟩ ∧
    (metaReadOnlyAttr_setattr ⟨"MetaMayaTypeWrapper", [⟨some ["apiType", "__readonly__"]⟩], []⟩
        "other" 3).1 = none ∧
    lookupA ((metaReadOnlyAttr_setattr
        ⟨"MetaMayaTypeWrapper", [⟨some ["apiType", "__readonly__"]⟩], []⟩
        "other" 3).2).attrs "other" = some 3 ∧
    "apiType" ∈ metaReadOnlyAttr_new ⟨some ["apiType"], [("fn", true), ("g", false)]⟩ ∧
    "fn" ∈ metaReadOnlyAttr_new ⟨some ["apiType"], [("fn", true), ("g", false)]⟩ :=
  ⟨((C3_metaReadOnlyAttr_protects
      ⟨"MetaMayaTypeWrapper", [⟨some ["apiType", "__readonly__"]⟩], []⟩ "apiType" 3
      ⟨some ["apiType"], [("fn", true), ("g", false)]⟩).1 (by decide)).1,
   ((C3_metaReadOnlyAttr_protects
      ⟨"MetaMayaTypeWrapper", [⟨some ["apiType", "__readonly__"]⟩], []⟩ "apiType" 3
      ⟨some ["apiType"], [("fn", true), ("g", false)]⟩).1 (by decide)).2,
   ((C3_metaReadOnlyAttr_protects
      ⟨"MetaMayaTypeWrapper", [⟨some ["apiType", "__readonly__"]⟩], []⟩ "other" 3
      ⟨some ["apiType"], [("fn", true), ("g", false)]⟩).2.1 (by decide)).1,
   ((C3_metaReadOnlyAttr_protects
      ⟨"MetaMayaTypeWrapper", [⟨some ["apiType", "__readonly__"]⟩], []⟩ "other" 3
      ⟨some ["apiType"], [("fn", true), ("g", false)]⟩).2.1 (by decide)).2,
   (C3_metaReadOnlyAttr_protects
      ⟨"MetaMayaTypeWrapper", [⟨some ["apiType", "__readonly__"]⟩], []⟩ "other" 3
      ⟨some ["apiType"], [("fn", true), ("g", false)]⟩).2.2.1
      ["apiType"] rfl "apiType" (by decide),
   (C3_metaReadOnlyAttr_protects
      ⟨"MetaMayaTypeWrapper", [⟨some ["apiType", "__readonly__"]⟩], []⟩ "other" 3
      ⟨some ["apiType"], [("fn", true), ("g", false)]⟩).2.2.2 "fn" (by decide)⟩

/-! ## `defaultlist` (utilitytypes.py lines 233-254)

    def __setitem__(self, index, item):
        try:
            list.__setitem__(self, index, item)
        except IndexError:
            diff = index - len(self) - 1
            assert diff > 0
            self.extend([self.default_factory()] * diff + [item])

Embedding: `list.__setitem__` supports negative indices and raises
`IndexError` out of range; the factory is modelled as a constant
producer `d` (the source calls it once and replicates the result). -/

/-- Python `list.__setitem__`: in-range (possibly negative) index sets the
element, anything else raises `IndexError`. -/
def list_setitem (l : List Nat) (index : Int) (item : Nat) :
    Except PyErr (List Nat) :=
  let n : Int := l.length
  let j : Int := if index < 0 then index + n else index
  if 0 ≤ j ∧ j < n then .ok (l.set j.toNat item) else .error .indexError

/-- `defaultlist.__setitem__` with `default_factory` producing `d`. -/
def defaultlist_setitem (d : Nat) (l : List Nat) (index : Int) (item : Nat) :
    Except PyErr (List Nat) :=
  match list_setitem l index item with
  | .ok l' => .ok l'
  | .error _ =>
    let diff : Int := index - l.length - 1
    if diff > 0 then .ok (l ++ List.replicate diff.toNat d ++ [item])
    else .error .assertionError

/-- C4 evaluation: in-range assignment works like list assignment, but
out-of-range assignment misplaces the item.  On an empty `defaultlist`
with default `7`, `dl[2] = 99` yields `[7, 99]`: the item lands at index
`1`, index `2` stays out of range; and `dl[0] = 99` (and `dl[1] = 99`)
raise `AssertionError` instead of extending, contradicting the claim that
the assigned item is stored at exactly the given index. -/
theorem C4_defaultlist_setitem_misplaces_item :
    defaultlist_setitem 7 [1, 2, 3] 1 99 = .ok [1, 99, 3] ∧
    defaultlist_setitem 7 [] 2 99 = .ok [7, 99] ∧
    ([7, 99] : List Nat).get? 1 = some 99 ∧
    ([7, 99] : List Nat).get? 2 = none ∧
    defaultlist_setitem 7 [] 0 99 = .error .assertionError ∧
    defaultlist_setitem 7 [] 1 99 = .error .assertionError :=
  ⟨rfl, rfl, rfl, rfl, rfl, rfl⟩

/-! ## fallback `defaultdict` (utilitytypes.py lines 197-231)

    def __getitem__(self, key):
        try:
            return dict.__getitem__(self, key)
        except KeyError:
            return self.__missing__(key)
    def __missing__(self, key):
        if self.default_factory is None:
            raise KeyError(key)
        self[key] = value = self.default_factory()
        return value

Embedding: the factory is a constant producer (`some v`) or absent. -/

/-- A fallback `defaultdict`: its entries and its `default_factory`,
modelled as the value the factory produces (`none` when the factory is
`None`). -/
structure Defaultdict where
  entries : List (String × Nat)
  default_factory : Option Nat
  deriving DecidableEq, Repr

/-- `dict.__getitem__`: the stored value, or `KeyError`. -/
def dict_getitem (self : Defaultdict) (key : String) : Except PyErr Nat :=
  match lookupA self.entries key with
  | some v => .ok v
  | none => .error (.keyError key)

/-- `defaultdict.__missing__`: `KeyError` without a factory, otherwise
store the factory result under the key and return it. -/
def defaultdict_missing (self : Defaultdict) (key : String) :
    Except PyErr Nat × Defaultdict :=
  match self.default_factory with
  | none => (.error (.keyError key), self)
  | some v => (.ok v, { self with entries := setA self.entries key v })

/-- `defaultdict.__getitem__`: `dict.__getitem__`, falling back to
`__missing__` on `KeyError`. -/
def defaultdict_getitem (self : Defaultdict) (key : String) :
    Except PyErr Nat × Defaultdict :=
  match dict_getitem self key with
  | .ok v => (.ok v, self)
  | .error _ => defaultdict_missing self key

/-- C9: `__getitem__` on a present key returns the stored value and leaves
the dict unchanged; on a missing key it raises `KeyError` with that key
and leaves the dict unchanged when `default_factory` is `None`, and
otherwise stores the factory result under the key and returns it. -/
theorem C9_defaultdict_getitem_spec (self : Defaultdict) (key : String) :
    (∀ v, lookupA self.entries key = some v →
       defaultdict_getitem self key = (.ok v, self)) ∧
    (lookupA self.entries key = none → self.default_factory = none →
       defaultdict_getitem self key = (.error (.keyError key), self)) ∧
    (∀ fv, lookupA self.entries key = none → self.default_factory = some fv →
       (defaultdict_getitem self key).1 = .ok fv ∧
       lookupA ((defaultdict_getitem self key).2).entries key = some fv) := by
  refine ⟨?_, ?_, ?_⟩
  · intro v hv
    unfold defaultdict_getitem dict_getitem
    rw [hv]
  · intro hk hf
    unfold defaultdict_getitem dict_getitem defaultdict_missing
    rw [hk, hf]
  · intro fv hk hf
    unfold defaultdict_getitem dict_getitem defaultdict_missing
    rw [hk, hf]
    exact ⟨rfl, lookupA_setA_self _ _ _⟩

/-- Witness for C9 at concrete dicts: a present key is returned with the
dict unchanged, a missing key without factory raises `KeyError` leaving
the dict unchanged, and a missing key with factory producing `0` is
materialized. -/
theorem C9_defaultdict_getitem_spec_witness :
    defaultdict_getitem ⟨[("A", 1)], some 0⟩ "A" = (.ok 1, ⟨[("A", 1)], some 0⟩) ∧
    defaultdict_getitem ⟨[("A", 1)], none⟩ "B"
      = (.error (.keyError "B"), ⟨[("A", 1)], none⟩) ∧
    (defaultdict_getitem ⟨[("A", 1)], some 0⟩ "B").1 = .ok 0 ∧
    lookupA ((defaultdict_getitem ⟨[("A", 1)], some 0⟩ "B").2).entries "B" = some 0 :=
  ⟨(C9_defaultdict_getitem_spec ⟨[("A", 1)], some 0⟩ "A").1 1 rfl,
   (C9_defaultdict_getitem_spec ⟨[("A", 1)], none⟩ "B").2.1 rfl rfl,
   ((C9_defaultdict_getitem_spec ⟨[("A", 1)], some 0⟩ "B").2.2 0 rfl rfl).1,
   ((C9_defaultdict_getitem_spec ⟨[("A", 1)], some 0⟩ "B").2.2 0 rfl rfl).2⟩

/-! ## `lazyLoadModule` (utilitytypes.py lines 470-528)

    class LazyLoadModule(types.ModuleType):
        class LazyLoader(object):
            def __init__(self, name, creator, *creatorArgs, **creatorKwargs): ...
            def __get__(self, obj, objtype):
                newobj = self.creator(*self.args, **self.kwargs)
                setattr(obj, self.name, newobj)
                return newobj
        @classmethod
        def _addattr(cls, name, creator, *creatorArgs, **creatorKwargs):
            setattr(cls, name, cls.LazyLoader(name, creator, *creatorArgs, **creatorKwargs))

Embedding: `LazyLoader` defines `__get__` but no `__set__`, so it is a
non-data descriptor and Python attribute lookup on the module consults
the instance `__dict__` first, then the class dict.  A creator is a
`LazySpec` (creator id plus arguments) evaluated by an abstract
`evalCreator`; `getattr` additionally reports how many creator calls the
access performed. -/

/-- A registered creator: which creator function and which arguments
`LazyLoader` stored at `_addattr` time. -/
structure LazySpec where
  creatorId : Nat
  args : List Nat
  deriving DecidableEq, Repr

/-- A module produced by `lazyLoadModule`: its instance `__dict__` and
the `LazyLoader` entries sitting on its class. -/
structure LazyLoadModuleState where
  instDict : List (String × Nat)
  classDict : List (String × LazySpec)
  deriving DecidableEq, Repr

/-- `LazyLoadModule._addattr`: store a `LazyLoader` on the class; the
creator is not consulted (the definition never touches `evalCreator`). -/
def LazyLoadModule_addattr (m : LazyLoadModuleState) (name : String)
    (spec : LazySpec) : LazyLoadModuleState :=
  { m with classDict := setA m.classDict name spec }

/-- Attribute access on the module: instance dict first (`LazyLoader` is
a non-data descriptor), then the class-dict loader, whose `__get__` calls
the creator, stores the result on the instance and returns it.  The last
component counts the creator calls made by this access. -/
def LazyLoadModule_getattr (evalCreator : Nat → List Nat → Nat)
    (m : LazyLoadModuleState) (name : String) :
    Except PyErr (Nat × LazyLoadModuleState × Nat) :=
  match lookupA m.instDict name with
  | some v => .ok (v, m, 0)
  | none =>
    match lookupA m.classDict name with
    | some spec =>
      let newobj := evalCreator spec.creatorId spec.args
      .ok (newobj, { m with instDict := setA m.instDict name newobj }, 1)
    | none => .error (.attributeError name)

/-- C6: an attribute registered with `_addattr` is not computed at
registration time (the module `__dict__` is untouched and no creator runs);
the first access calls the creator exactly once, stores the result on the
module under that name and returns it; and any access to an attribute
already stored on the module returns the stored object with zero creator
calls. -/
theorem C6_lazyLoadModule_lazy (evalCreator : Nat → List Nat → Nat)
    (m : LazyLoadModuleState) (name : String) (spec : LazySpec)
    (hfresh : lookupA m.instDict name = none) :
    (LazyLoadModule_addattr m name spec).instDict = m.instDict ∧
    LazyLoadModule_getattr evalCreator (LazyLoadModule_addattr m name spec) name
      = .ok (evalCreator spec.creatorId spec.args,
             { instDict := setA m.instDict name (evalCreator spec.creatorId spec.args),
               classDict := setA m.classDict name spec }, 1) ∧
    (∀ (m' : LazyLoadModuleState) (v : Nat), lookupA m'.instDict name = some v →
       LazyLoadModule_getattr evalCreator m' name = .ok (v, m', 0)) := by
  refine ⟨rfl, ?_, ?_⟩
  · unfold LazyLoadModule_getattr LazyLoadModule_addattr
    rw [show ({ m with classDict := setA m.classDict name spec }
               : LazyLoadModuleState).instDict = m.instDict from rfl,
        hfresh, lookupA_setA_self]
  · intro m' v hv
    unfold LazyLoadModule_getattr
    rw [hv]

/-- Witness for C6: on a fresh module, register `foo` and access it twice;
creator `7` with args `[3]` runs once and the result is cached. -/
theorem C6_lazyLoadModule_lazy_witness :
    (LazyLoadModule_addattr ⟨[("bar", 0)], []⟩ "foo" ⟨7, [3]⟩).instDict = [("bar", 0)] ∧
    LazyLoadModule_getattr (fun c args => c + args.sum)
        (LazyLoadModule_addattr ⟨[("bar", 0)], []⟩ "foo" ⟨7, [3]⟩) "foo"
      = .ok (10, { instDict := setA [("bar", 0)] "foo" 10,
                   classDict := setA [] "foo" ⟨7, [3]⟩ }, 1) ∧
    LazyLoadModule_getattr (fun c args => c + args.sum)
        ⟨setA [("bar", 0)] "foo" 10, setA [] "foo" ⟨7, [3]⟩⟩ "foo"
      = .ok (10, ⟨setA [("bar", 0)] "foo" 10, setA [] "foo" ⟨7, [3]⟩⟩, 0) :=
  ⟨(C6_lazyLoadModule_lazy (fun c args => c + args.sum)
      ⟨[("bar", 0)], []⟩ "foo" ⟨7, [3]⟩ rfl).1,
   (C6_lazyLoadModule_lazy (fun c args => c + args.sum)
      ⟨[("bar", 0)], []⟩ "foo" ⟨7, [3]⟩ rfl).2.1,
   (C6_lazyLoadModule_lazy (fun c args => c + args.sum)
      ⟨[("bar", 0)], []⟩ "foo" ⟨7, [3]⟩ rfl).2.2
     ⟨setA [("bar", 0)] "foo" 10, setA [] "foo" ⟨7, [3]⟩⟩ 10 rfl⟩

/-! ## `LazyDocString` (utilitytypes.py lines 594-625)

    def __init__(self, argList):
        ... documentedObj, docGetter, args, kwargs = parse(argList) ...
        try:
            documentedObj.__doc__ = 'LazyDocString placeholder'
        except AttributeError:
            raise LazyDocStringError(...)
        self.documentedObj = documentedObj; self.docGetter = docGetter
        self.args = args; self.kwargs = kwargs
    def __str__(self):
        self.documentedObj.__doc__ = self.docGetter(*self.args, **self.kwargs)
        return self.documentedObj.__doc__

Embedding: the documented object is represented by its `__doc__` cell
(plus the flag saying whether that cell accepts assignment); the getter
is a `docGetterId` evaluated by an abstract `evalDocGetter`; `__init__`
and `__str__` report how many getter calls they performed. -/

/-- A `LazyDocString` after construction: the documented object's
`__doc__` cell and the stored getter id, args and kwargs. -/
structure LazyDocString where
  documentedObjDoc : Option String
  docGetterId : Nat
  args : List Nat
  kwargs : List (String × Nat)
  deriving DecidableEq, Repr

/-- `LazyDocString.__init__`: install the placeholder docstring (or raise
`LazyDocStringError` when the documented object's `__doc__` is not
assignable) and store getter, args and kwargs.  The second component
counts docGetter calls: `__init__` never evaluates the getter (it does
not even receive `evalDocGetter`). -/
def LazyDocString_init (canSetDoc : Bool) (docGetterId : Nat) (args : List Nat)
    (kwargs : List (String × Nat)) : Except PyErr LazyDocString × Nat :=
  match canSetDoc with
  | true =>
    (.ok { documentedObjDoc := some "LazyDocString placeholder",
           docGetterId := docGetterId, args := args, kwargs := kwargs }, 0)
  | false =>
    (.error (.lazyDocStringError "cannot modify the docstring of these objects"), 0)

/-- `LazyDocString.__str__`: evaluate the getter on the stored args,
assign the result to the documented object's `__doc__` and return it,
making one getter call. -/
def LazyDocString_str (evalDocGetter : Nat → List Nat → List (String × Nat) → String)
    (s : LazyDocString) : String × LazyDocString × Nat :=
  let d := evalDocGetter s.docGetterId s.args s.kwargs
  (d, { s with documentedObjDoc := some d }, 1)

/-- C7: constructing a `LazyDocString` performs zero docGetter calls, and
the first string conversion of the constructed object calls the getter
(once) with the stored arguments, assigns the result to the documented
object's `__doc__`, and returns exactly that result. -/
theorem C7_LazyDocString_defers (evalDocGetter : Nat → List Nat → List (String × Nat) → String)
    (canSetDoc : Bool) (docGetterId : Nat) (args : List Nat)
    (kwargs : List (String × Nat)) :
    (LazyDocString_init canSetDoc docGetterId args kwargs).2 = 0 ∧
    (∀ s, (LazyDocString_init true docGetterId args kwargs).1 = .ok s →
       LazyDocString_str evalDocGetter s
         = (evalDocGetter docGetterId args kwargs,
            { documentedObjDoc := some (evalDocGetter docGetterId args kwargs),
              docGetterId := docGetterId, args := args, kwargs := kwargs }, 1)) := by
  constructor
  · cases canSetDoc <;> rfl
  · intro s h
    have h' : LazyDocString.mk (some "LazyDocString placeholder") docGetterId args kwargs = s :=
      Except.ok.inj h
    rw [← h']
    rfl

/-- Witness for C7 at a concrete getter and argument list. -/
theorem C7_LazyDocString_defers_witness :
    (LazyDocString_init true 4 [1, 2] [("k", 9)]).2 = 0 ∧
    LazyDocString_str (fun g as ks => toString (g + as.sum + ks.length))
        ⟨some "LazyDocString placeholder", 4, [1, 2], [("k", 9)]⟩
      = (toString (4 + ([1, 2] : List Nat).sum + ([("k", 9)] : List (String × Nat)).length),
         { documentedObjDoc :=
             some (toString (4 + ([1, 2] : List Nat).sum + ([("k", 9)] : List (String × Nat)).length)),
           docGetterId := 4, args := [1, 2], kwargs := [("k", 9)] }, 1) :=
  ⟨(C7_LazyDocString_defers (fun g as ks => toString (g + as.sum + ks.length))
      true 4 [1, 2] [("k", 9)]).1,
   (C7_LazyDocString_defers (fun g as ks => toString (g + as.sum + ks.length))
      true 4 [1, 2] [("k", 9)]).2
     ⟨some "LazyDocString placeholder", 4, [1, 2], [("k", 9)]⟩ rfl⟩

/-! ## `proxyClass` (utilitytypes.py lines 357-427)

    def _methodWrapper(method):                       # sourceIsImmutable case
        def wrapper(self, *args, **kwargs):
            return method(cls(getattr(self, dataAttrName)), *args, **kwargs)
        return wrapper
    remove = ['__new__', '__init__', '__getattribute__', '__getattr__'] + remove
    class Proxy(object): pass
    for methodName, method in cls.__dict__.items():
        if methodName not in remove:
            setattr(Proxy, methodName, _methodWrapper(method))

(The `dataFuncName` variant reconstructs from `getattr(self, dataFuncName)()`
instead of `getattr(self, dataAttrName)`; both reach the wrapper as the
proxy's internal raw data.)

Embedding: the wrapped class `cls` is its constructor (`make`, rebuilding
a `cls` value from raw data) together with its `__dict__` method table;
a proxy instance is its internal raw data (the `dataAttrName` attribute,
or the result of calling the `dataFuncName` method).  `setattr` on a
fresh class with distinct names never raises, so the
`except AttributeError` arm of the loop is dead and not modelled. -/

/-- The wrapped class handed to `proxyClass`: `make` is the constructor
`cls(...)` and `methods` its `__dict__` method table. -/
structure WrappedClass (RawData Data Val : Type) where
  make : RawData → Data
  methods : List (String × (Data → List Val → Val))

/-- A `Proxy` instance: `data` is the internal raw data, the value of the
attribute named `dataAttrName` or the result of calling the method named
`dataFuncName`. -/
structure ProxyInstance (RawData : Type) where
  data : RawData

/-- The full removal set: the caller-supplied list plus the four names
`proxyClass` always removes. -/
def proxyClass_removeAll (remove : List String) : List String :=
  ["__new__", "__init__", "__getattribute__", "__getattr__"] ++ remove

/-- The method table `proxyClass` installs on `Proxy`: every `cls` method
outside the removal set, wrapped to run on the `cls` value rebuilt from
the proxy's internal data. -/
def proxyClass_methods {RawData Data Val : Type}
    (wc : WrappedClass RawData Data Val) (remove : List String) :
    List (String × (ProxyInstance RawData → List Val → Val)) :=
  (wc.methods.filter (fun kv => decide (kv.1 ∉ proxyClass_removeAll remove))).map
    (fun kv => (kv.1, fun self args => kv.2 (wc.make self.data) args))

theorem lookupA_eq_of_mem_nodup {α : Type} (l : List (String × α)) (k : String) (v : α)
    (hmem : (k, v) ∈ l) (hnodup : (l.map Prod.fst).Nodup) : lookupA l k = some v := by
  induction l with
  | nil => cases hmem
  | cons kv rest ih =>
    simp only [List.map_cons, List.nodup_cons] at hnodup
    rcases List.mem_cons.1 hmem with h | h
    · rw [← h]
      simp [lookupA]
    · have hk : kv.1 ≠ k := fun he =>
        hnodup.1 (by rw [he]; exact List.mem_map_of_mem Prod.fst h)
      simp only [lookupA, if_neg hk]
      exact ih h hnodup.2

theorem proxyClass_methods_keys {RawData Data Val : Type}
    (wc : WrappedClass RawData Data Val) (remove : List String) :
    (proxyClass_methods wc remove).map Prod.fst
      = (wc.methods.filter
          (fun kv => decide (kv.1 ∉ proxyClass_removeAll remove))).map Prod.fst := by
  unfold proxyClass_methods
  rw [List.map_map]
  rfl

/-- C8: for every method `name ↦ method` of the wrapped class whose name
is outside the removal set (caller-supplied `remove` plus `__new__`,
`__init__`, `__getattribute__`, `__getattr__`), the generated proxy class
has a method of that name, and calling it on a proxy instance with any
arguments returns what the original method returns on the wrapped-type
value rebuilt from the proxy's internal data. -/
theorem C8_proxyClass_delegates {RawData Data Val : Type}
    (wc : WrappedClass RawData Data Val) (remove : List String)
    (name : String) (method : Data → List Val → Val)
    (hmem : (name, method) ∈ wc.methods)
    (hnodup : (wc.methods.map Prod.fst).Nodup)
    (hnot : name ∉ proxyClass_removeAll remove) :
    ∃ w, lookupA (proxyClass_methods wc remove) name = some w ∧
      ∀ (self : ProxyInstance RawData) (args : List Val),
        w self args = method (wc.make self.data) args := by
  refine ⟨fun self args => method (wc.make self.data) args, ?_, fun _ _ => rfl⟩
  have hfilter : (name, method) ∈ wc.methods.filter
      (fun kv => decide (kv.1 ∉ proxyClass_removeAll remove)) :=
    List.mem_filter.2 ⟨hmem, by simpa using hnot⟩
  have hmem' : (name, fun self args => method (wc.make self.data) args)
      ∈ proxyClass_methods wc remove :=
    List.mem_map.2 ⟨(name, method), hfilter, rfl⟩
  have hnodup' : ((proxyClass_methods wc remove).map Prod.fst).Nodup := by
    rw [proxyClass_methods_keys]
    exact hnodup.sublist (List.Sublist.map Prod.fst (List.filter_sublist _))
  exact lookupA_eq_of_mem_nodup _ _ _ hmem' hnodup'

/-- Witness for C8 on a concrete wrapped class with two methods, one of
them removed: the kept method `upper` delegates through the rebuilt
value. -/
theorem C8_proxyClass_delegates_witness :
    ∃ w, lookupA (proxyClass_methods
        (⟨fun n => n * 2,
          [("upper", fun d args => d + args.length), ("translate", fun d _ => d)]⟩
          : WrappedClass Nat Nat Nat) ["translate"]) "upper" = some w ∧
      ∀ (self : ProxyInstance Nat) (args : List Nat),
        w self args = self.data * 2 + args.length :=
  C8_proxyClass_delegates
    (⟨fun n => n * 2,
      [("upper", fun d args => d + args.length), ("translate", fun d _ => d)]⟩
      : WrappedClass Nat Nat Nat) ["translate"] "upper"
    (fun d args => d + args.length) (List.Mem.head _) (by decide) (by decide)

/-! ## `ModuleInterceptor` (utilitytypes.py lines 257-284)

    def __getattr__(self, attr):
        try:
            return getattr(self.module, attr)
        except AttributeError, msg:
            try:
                self.callback(self.module, attr)
            except:
                raise AttributeError, msg

Embedding: the wrapped module is a partial map from attribute names to
values; the callback is a function that either returns a value (which the
code discards) or raises.  When both the module lookup and the callback
fall through, the method returns Python `None`, modelled as `.ok none`. -/

/-- `getattr(self.module, attr)`: the module attribute, or the original
`AttributeError`. -/
def module_getattr {α : Type} (moduleAttrs : String → Option α) (attr : String) :
    Except PyErr α :=
  match moduleAttrs attr with
  | some v => .ok v
  | none => .error (.attributeError ("module has no attribute " ++ attr))

/-- `ModuleInterceptor.__getattr__`: return the module attribute when it
exists; otherwise run the callback, re-raising the original
`AttributeError` when the callback raises anything and returning `None`
(never the callback's result) when it completes. -/
def ModuleInterceptor_getattr {α β : Type} (moduleAttrs : String → Option α)
    (callback : String → Except PyErr β) (attr : String) :
    Except PyErr (Option α) :=
  match module_getattr moduleAttrs attr with
  | .ok v => .ok (some v)
  | .error msg =>
    match callback attr with
    | .ok _ => .ok none
    | .error _ => .error msg

/-- C10: lookup of a name the module has returns the module's attribute;
for a name the module lacks, a raising callback makes the lookup re-raise
the original `AttributeError`, and a completing callback makes the lookup
return `None` — the callback's result is never returned. -/
theorem C10_ModuleInterceptor_getattr_spec {α β : Type}
    (moduleAttrs : String → Option α) (callback : String → Except PyErr β)
    (attr : String) :
    (∀ v, moduleAttrs attr = some v →
       ModuleInterceptor_getattr moduleAttrs callback attr = .ok (some v)) ∧
    (∀ e, moduleAttrs attr = none → callback attr = .error e →
       ModuleInterceptor_getattr moduleAttrs callback attr
         = .error (.attributeError ("module has no attribute " ++ attr))) ∧
    (∀ r, moduleAttrs attr = none → callback attr = .ok r →
       ModuleInterceptor_getattr moduleAttrs callback attr = .ok none) := by
  refine ⟨?_, ?_, ?_⟩
  · intro v hv
    unfold ModuleInterceptor_getattr module_getattr
    rw [hv]
  · intro e hm hc
    unfold ModuleInterceptor_getattr module_getattr
    rw [hm, hc]
  · intro r hm hc
    unfold ModuleInterceptor_getattr module_getattr
    rw [hm, hc]

/-- Witness for C10 on a concrete one-attribute module and a callback
that raises `ValueError` on everything except `this`, where it returns
`5` (a result the interceptor must discard). -/
theorem C10_ModuleInterceptor_getattr_spec_witness :
    ModuleInterceptor_getattr (fun a => if a = "x" then some 1 else none)
        (fun a => if a = "this" then .ok 5 else .error (.typeError "ValueError")) "x"
      = .ok (some 1) ∧
    ModuleInterceptor_getattr (fun a => if a = "x" then some 1 else none)
        (fun a => if a = "this" then .ok 5 else .error (.typeError "ValueError")) "y"
      = .error (.attributeError "module has no attribute y") ∧
    ModuleInterceptor_getattr (fun a => if a = "x" then some 1 else none)
        (fun a => if a = "this" then .ok 5 else .error (.typeError "ValueError")) "this"
      = .ok none :=
  ⟨(C10_ModuleInterceptor_getattr_spec (fun a => if a = "x" then some 1 else none)
      (fun a => if a = "this" then .ok 5 else .error (.typeError "ValueError")) "x").1
      1 rfl,
   (C10_ModuleInterceptor_getattr_spec (fun a => if a = "x" then some 1 else none)
      (fun a => if a = "this" then .ok 5 else .error (.typeError "ValueError")) "y").2.1
      (.typeError "ValueError") rfl rfl,
   (C10_ModuleInterceptor_getattr_spec (fun a => if a = "x" then some 1 else none)
      (fun a => if a = "this" then .ok 5 else .error (.typeError "ValueError")) "this").2.2
      5 rfl rfl⟩

end UtilityTypes
